import Mathlib

/-!
Shallow embedding of the retry/validation/batch logic of
`Code-Samples/Python/02-Text-and-Language/05-text-summarizer.py`,
the conversation-history manager of
`Code-Samples/Python/02-Text-and-Language/chat_with_gpt.py`,
and the input handling of
`Code-Samples/Python/01-Getting-Started/first_ai_project.py`.

Vendor calls are abstracted by an environment function giving, for each
attempt index, the observable outcome of executing the loop body once
(return, break, HttpResponseError with a status code, or another
exception).  Runs record a trace of events: one `request` per attempt of
the loop body, and one `sleep d` per `await asyncio.sleep(d)` executed by
the retry wrapper.  Delays are exact rationals (the Python floats involved,
1.0, 2.0 and powers of two, are all exactly representable).
-/

namespace AzureAIModels

/-- Python `str.strip()` on code points: drop whitespace from both ends. -/
def pyStrip (s : String) : String :=
  ⟨((s.data.dropWhile Char.isWhitespace).reverse.dropWhile Char.isWhitespace).reverse⟩

/-- Python slicing `l[i:]` for an `int` index `i` (negative indices count
from the end; a negative index below `-len` clamps to the start). -/
def pySliceFrom {α : Type} (l : List α) (i : Int) : List α :=
  if i < 0 then l.drop ((l.length + i).toNat) else l.drop i.toNat

/-- Result record built by the summarizer (dataclass `SummaryResult`). -/
structure SummaryResult where
  summary_type : String
  summary_text : String
  sentences : List String := []
  rank_scores : List ℚ := []
  processing_time : ℚ := 0
  character_count : Nat := 0
  confidence_score : ℚ := 0
deriving DecidableEq

/-- Result record for conversation summarization (dataclass
`ConversationSummary`). -/
structure ConversationSummary where
  issue : String := ""
  resolution : String := ""
  recap : String := ""
  chapter_titles : Option (List String) := none
  narrative_summaries : Option (List String) := none
deriving DecidableEq

/-- One conversation item passed to `conversation_summarization`. -/
structure ConversationItem where
  text : String
  role : String := "Customer"
  participantId : String := ""
deriving DecidableEq

/-- Exceptions observable at the boundary of the embedded functions. -/
inductive PyError where
  | valueError (msg : String)
  | httpResponseError (statusCode : Nat)
  | other (msg : String)
deriving DecidableEq

/-- Observable outcome of executing the retry-loop body once: the body
either returns a value, breaks out of the loop (extractive and abstractive
summarization break when the vendor result holds no document results),
raises an `HttpResponseError` with a status code, or raises some other
exception. -/
inductive BodyResult (α : Type) where
  | ret (r : α)
  | brk
  | raiseHttp (statusCode : Nat)
  | raiseOther (msg : String)
deriving DecidableEq

/-- Outcome of the whole `for attempt in range(max_retries)` loop: a value
was returned, the loop was left without returning (the enclosing function
then implicitly returns `None`), or an exception propagated. -/
inductive LoopResult (α : Type) where
  | returned (r : α)
  | fellThrough
  | raised (e : PyError)
deriving DecidableEq

/-- Events recorded during a run: one `request` per executed attempt of the
loop body, one `sleep` (duration in seconds) per backoff sleep. -/
inductive Event where
  | request
  | sleep (seconds : ℚ)
deriving DecidableEq

/-- Retry configuration set in `AzureTextSummarizer.__init__`. -/
structure RetryConfig where
  max_retries : Nat
  retry_delay : ℚ
  rate_limit_delay : ℚ
deriving DecidableEq

/-- The values assigned in `__init__`: `max_retries = 3`,
`retry_delay = 1.0`, `rate_limit_delay = 2.0`. -/
def defaultConfig : RetryConfig :=
  { max_retries := 3, retry_delay := 1, rate_limit_delay := 2 }

/-- The retry loop shared by the three summarization methods, run from
attempt index `attempt` with `fuel` loop iterations left (at the top of
the loop, `fuel = max_retries - attempt`).  Mirrors:
`except HttpResponseError` with status 429 sleeps
`rate_limit_delay * (2 ** attempt)` and continues, any other status
re-raises; `except Exception` re-raises on the last attempt
(`attempt == max_retries - 1`) and otherwise sleeps
`retry_delay * (2 ** attempt)` and continues. -/
def retryAux {α : Type} (cfg : RetryConfig) (body : Nat → BodyResult α) :
    Nat → Nat → LoopResult α × List Event
  | 0, _ => (.fellThrough, [])
  | fuel + 1, attempt =>
    match body attempt with
    | .ret r => (.returned r, [.request])
    | .brk => (.fellThrough, [.request])
    | .raiseHttp code =>
      if code = 429 then
        let rest := retryAux cfg body fuel (attempt + 1)
        (rest.1, .request :: .sleep (cfg.rate_limit_delay * 2 ^ attempt) :: rest.2)
      else
        (.raised (.httpResponseError code), [.request])
    | .raiseOther msg =>
      if attempt = cfg.max_retries - 1 then
        (.raised (.other msg), [.request])
      else
        let rest := retryAux cfg body fuel (attempt + 1)
        (rest.1, .request :: .sleep (cfg.retry_delay * 2 ^ attempt) :: rest.2)

/-- The full `for attempt in range(max_retries)` loop. -/
def retryLoop {α : Type} (cfg : RetryConfig) (body : Nat → BodyResult α) :
    LoopResult α × List Event :=
  retryAux cfg body cfg.max_retries 0

/-- Overall outcome of one summarization call: a value was returned, the
coroutine returned `None`, or an exception was raised. -/
inductive PyOutcome (α : Type) where
  | ok (r : α)
  | noneReturn
  | error (e : PyError)
deriving DecidableEq

/-- A run of a summarization method: its outcome, its event trace, and the
success flags of the `_update_stats` calls it performed, in order. -/
structure Run (α : Type) where
  result : PyOutcome α
  events : List Event
  statsUpdates : List Bool
deriving DecidableEq

/-- Wraps the retry loop in the outer `try/except` of each summarization
method: a returned value was preceded by `_update_stats(..., True)`, a
loop that is left without returning reaches the end of the function body
(implicit `None`, no stats update), and a propagating exception is caught
by the outer handler, recorded with `_update_stats(..., False)`, and
re-raised. -/
def finishRun {α : Type} (lr : LoopResult α × List Event) : Run α :=
  match lr.1 with
  | .returned r => { result := .ok r, events := lr.2, statsUpdates := [true] }
  | .fellThrough => { result := .noneReturn, events := lr.2, statsUpdates := [] }
  | .raised e => { result := .error e, events := lr.2, statsUpdates := [false] }

/-- A validation `ValueError` raised inside the outer `try` is caught by
the outer handler, recorded with `_update_stats(..., False)`, and
re-raised, before any request is made. -/
def validationFailure {α : Type} (msg : String) : Run α :=
  { result := .error (.valueError msg), events := [], statsUpdates := [false] }

/-- `AzureTextSummarizer.extractive_summarization`: validates the text and
the sentence count, then runs the retry loop around
`begin_analyze_actions`. -/
def extractive_summarization (cfg : RetryConfig) (text : String)
    (sentence_count : Int) (sort_by : String)
    (body : Nat → BodyResult SummaryResult) : Run SummaryResult :=
  let _ := sort_by
  if pyStrip text = "" then
    validationFailure "Input text cannot be empty"
  else if ¬ (1 ≤ sentence_count ∧ sentence_count ≤ 20) then
    validationFailure "Sentence count must be between 1 and 20"
  else
    finishRun (retryLoop cfg body)

/-- `AzureTextSummarizer.abstractive_summarization`: validates the text and
the summary length, then runs the same retry loop. -/
def abstractive_summarization (cfg : RetryConfig) (text : String)
    (summary_length : String)
    (body : Nat → BodyResult SummaryResult) : Run SummaryResult :=
  if pyStrip text = "" then
    validationFailure "Input text cannot be empty"
  else if ¬ (summary_length = "short" ∨ summary_length = "medium" ∨ summary_length = "long") then
    validationFailure "Summary length must be short, medium, or long"
  else
    finishRun (retryLoop cfg body)

/-- `AzureTextSummarizer.conversation_summarization`: rejects an empty item
list, then runs the same retry loop around the REST job submission and
polling. -/
def conversation_summarization (cfg : RetryConfig)
    (conversation_items : List ConversationItem)
    (body : Nat → BodyResult ConversationSummary) : Run ConversationSummary :=
  if conversation_items = [] then
    validationFailure "Conversation items cannot be empty"
  else
    finishRun (retryLoop cfg body)

/-- Number of loop-body attempts recorded in a trace. -/
def countRequests (evs : List Event) : Nat :=
  evs.countP (fun e => e = Event.request)

/-- Whether the trace contains a sleep of duration `d` immediately followed
by a request (the shape "sleep, then re-issue the request"). -/
def sleepThenReissue (evs : List Event) (d : ℚ) : Bool :=
  match evs with
  | Event.sleep d' :: Event.request :: rest =>
    (d' = d) || sleepThenReissue (Event.request :: rest) d
  | _ :: rest => sleepThenReissue rest d
  | [] => false

/-- The environment in which every attempt raises HTTP 429. -/
def allRateLimited {α : Type} : Nat → BodyResult α :=
  fun _ => .raiseHttp 429

/-- One element of the list produced by `asyncio.gather(*tasks,
return_exceptions=True)` in `batch_summarization`: the per-document helper
`process_document` either returned a `SummaryResult`, or returned `None`
(it catches every `Exception` and returns `None`), or the gathered task
itself surfaced an exception value. -/
inductive GatherItem where
  | value (r : SummaryResult)
  | noneValue
  | exc (e : PyError)
deriving DecidableEq

/-- The `isinstance(r, SummaryResult)` filter applied to gathered results. -/
def keepSummaryResult (g : GatherItem) : Option SummaryResult :=
  match g with
  | .value r => some r
  | .noneValue => none
  | .exc _ => none

/-- `AzureTextSummarizer.batch_summarization`: gather one result per
document (in document order) and keep exactly those that are
`SummaryResult` values. -/
def batch_summarization (documents : List String)
    (process : String → GatherItem) : List SummaryResult :=
  let results := documents.map process
  results.filterMap keepSummaryResult

/-- One message of a chat conversation (a Python dict with keys `role` and
`content`). -/
structure Message where
  role : String
  content : String
deriving DecidableEq

/-- State of `chat_with_gpt.ConversationManager`. -/
structure ConversationManager where
  messages : List Message
  max_history : Int
  total_tokens : Nat
deriving DecidableEq

/-- `ConversationManager.__init__`: start with the single system message. -/
def ConversationManager.init (system_prompt : String) (max_history : Int) :
    ConversationManager :=
  { messages := [{ role := "system", content := system_prompt }]
    max_history := max_history
    total_tokens := 0 }

/-- `ConversationManager._trim_history`: when the list is longer than
`max_history + 1`, replace it by `[messages[0]] + messages[-max_history:]`
(Python slice semantics: with `max_history = 0` the slice `[-0:]` is the
whole list). -/
def ConversationManager.trim_history (cm : ConversationManager) :
    ConversationManager :=
  if (cm.messages.length : Int) > cm.max_history + 1 then
    { cm with
      messages := cm.messages.take 1 ++ pySliceFrom cm.messages (-cm.max_history) }
  else
    cm

/-- `ConversationManager.add_user_message`: append, then trim. -/
def ConversationManager.add_user_message (cm : ConversationManager)
    (content : String) : ConversationManager :=
  ConversationManager.trim_history
    { cm with messages := cm.messages ++ [{ role := "user", content := content }] }

/-- `ConversationManager.add_assistant_message`: append, then trim. -/
def ConversationManager.add_assistant_message (cm : ConversationManager)
    (content : String) : ConversationManager :=
  ConversationManager.trim_history
    { cm with messages := cm.messages ++ [{ role := "assistant", content := content }] }

/-- One call of the public mutators of `ConversationManager`. -/
inductive ChatOp where
  | user (content : String)
  | assistant (content : String)
deriving DecidableEq

/-- Apply a sequence of `add_user_message` / `add_assistant_message` calls. -/
def applyChatOps (cm : ConversationManager) : List ChatOp → ConversationManager
  | [] => cm
  | .user c :: rest => applyChatOps (cm.add_user_message c) rest
  | .assistant c :: rest => applyChatOps (cm.add_assistant_message c) rest

/-- `first_ai_project.analyze_text`, abstracted to the document it sends to
the service: an empty or whitespace-only text makes the function print a
warning and return early (`none`, no service call); a text longer than
5000 code points is truncated to its first 5000 code points before being
analyzed. -/
def analyze_text (text : String) : Option String :=
  if pyStrip text = "" then
    none
  else if text.data.length > 5000 then
    some ⟨text.data.take 5000⟩
  else
    some text

/-! Helper lemmas about the retry loop. -/

/-- Each run of the loop executes at most `fuel` attempts. -/
theorem countRequests_retryAux_le {α : Type} (cfg : RetryConfig)
    (body : Nat → BodyResult α) :
    ∀ fuel attempt, countRequests (retryAux cfg body fuel attempt).2 ≤ fuel := by
  intro fuel
  induction fuel with
  | zero => intro attempt; simp [retryAux, countRequests]
  | succ n ih =>
    intro attempt
    rcases hb : body attempt with r | _ | code | msg
    · simp [retryAux, hb, countRequests]
    · simp [retryAux, hb, countRequests]
    · by_cases hc : code = 429
      · have := ih (attempt + 1)
        simp only [retryAux, hb, hc, if_pos rfl] at *
        simpa [countRequests, List.countP_cons] using this
      · simp [retryAux, hb, hc, countRequests]
    · by_cases ha : attempt = cfg.max_retries - 1
      · simp only [retryAux, hb]
        simp [ha, countRequests]
      · have := ih (attempt + 1)
        simp only [retryAux, hb, if_neg ha] at *
        simpa [countRequests, List.countP_cons] using this

/-- When at least one attempt remains, the trace of the loop starts with
the request of that attempt. -/
theorem retryAux_head_request {α : Type} (cfg : RetryConfig)
    (body : Nat → BodyResult α) (fuel attempt : Nat) (hf : 0 < fuel) :
    (retryAux cfg body fuel attempt).2.head? = some Event.request := by
  match fuel, hf with
  | n + 1, _ =>
    rcases hb : body attempt with r | _ | code | msg
    · simp [retryAux, hb]
    · simp [retryAux, hb]
    · by_cases hc : code = 429 <;> simp [retryAux, hb, hc]
    · by_cases ha : attempt = cfg.max_retries - 1 <;>
        · simp only [retryAux, hb]
          simp [ha]

/-- The loop never raises a `ValueError`: every exception it propagates is
the `HttpResponseError` or generic exception of a loop body. -/
theorem retryAux_raised_shape {α : Type} (cfg : RetryConfig)
    (body : Nat → BodyResult α) :
    ∀ fuel attempt e, (retryAux cfg body fuel attempt).1 = .raised e →
      (∃ code, e = .httpResponseError code) ∨ (∃ msg, e = .other msg) := by
  intro fuel
  induction fuel with
  | zero => intro attempt e h; simp [retryAux] at h
  | succ n ih =>
    intro attempt e h
    rcases hb : body attempt with r | _ | code | msg
    · simp [retryAux, hb] at h
    · simp [retryAux, hb] at h
    · by_cases hc : code = 429
      · simp only [retryAux, hb, hc, if_pos rfl] at h
        exact ih (attempt + 1) e h
      · simp [retryAux, hb, hc] at h
        exact Or.inl ⟨code, h.symm⟩
    · by_cases ha : attempt = cfg.max_retries - 1
      · simp only [retryAux, hb] at h
        simp [ha] at h
        exact Or.inr ⟨msg, h.symm⟩
      · simp only [retryAux, hb, if_neg ha] at h
        exact ih (attempt + 1) e h

/-- If every remaining attempt raises HTTP 429, the loop is exhausted
through the rate-limit branch and falls through. -/
theorem retryAux_all429_fellThrough {α : Type} (cfg : RetryConfig)
    (body : Nat → BodyResult α) :
    ∀ fuel attempt, (∀ j, j < fuel → body (attempt + j) = .raiseHttp 429) →
      (retryAux cfg body fuel attempt).1 = .fellThrough := by
  intro fuel
  induction fuel with
  | zero => intro attempt _; simp [retryAux]
  | succ n ih =>
    intro attempt hall
    have h0 : body attempt = .raiseHttp 429 := by
      simpa using hall 0 (Nat.succ_pos n)
    simp only [retryAux, h0, if_pos rfl]
    exact ih (attempt + 1) (fun j hj => by
      have := hall (j + 1) (Nat.succ_lt_succ hj)
      simpa [Nat.add_assoc, Nat.add_comm 1 j] using this)

/-- The outer handler does not change the event trace of the loop. -/
theorem finishRun_events {α : Type} (lr : LoopResult α × List Event) :
    (finishRun lr).events = lr.2 := by
  rcases lr with ⟨res, evs⟩
  cases res <;> rfl

/-- A run whose loop fell through returns `None` and records no stats. -/
theorem finishRun_fellThrough {α : Type} (lr : LoopResult α × List Event)
    (h : lr.1 = .fellThrough) :
    (finishRun lr).result = .noneReturn ∧ (finishRun lr).statsUpdates = [] := by
  rcases lr with ⟨res, evs⟩
  cases res <;> simp_all [finishRun]

/-- The outer handler re-raises exactly the exceptions the loop raised. -/
theorem finishRun_result_error {α : Type} (lr : LoopResult α × List Event)
    (e : PyError) : (finishRun lr).result = .error e ↔ lr.1 = .raised e := by
  rcases lr with ⟨res, evs⟩
  cases res <;> simp [finishRun]

/-- Every run outcome is a return, an implicit `None`, or a raise. -/
theorem run_result_trichotomy {α : Type} (r : Run α) :
    (∃ v, r.result = .ok v) ∨ r.result = .noneReturn ∨ ∃ e, r.result = .error e := by
  rcases r with ⟨res, evs, su⟩
  rcases res with v | _ | e
  · exact Or.inl ⟨v, rfl⟩
  · exact Or.inr (Or.inl rfl)
  · exact Or.inr (Or.inr ⟨e, rfl⟩)

/-! Claim theorems. -/

/-- C1, counterexample.  When every attempt of
`extractive_summarization` raises HTTP 429 (so in particular attempt 2,
with 2 < max_retries = 3, fails rate-limited), the run sleeps
`rate_limit_delay * 2 ^ 2 = 8` seconds after the third request but never
re-issues the request afterwards: the trace ends with that sleep, so the
claimed "sleeps and then re-issues the same request" fails at attempt 2. -/
theorem c1_counterexample :
    allRateLimited (α := SummaryResult) 2 = .raiseHttp 429 ∧
    2 < defaultConfig.max_retries ∧
    defaultConfig.rate_limit_delay * 2 ^ 2 = 8 ∧
    (extractive_summarization defaultConfig "hello" 3 "Rank" allRateLimited).events =
      [Event.request, Event.sleep 2, Event.request, Event.sleep 4,
        Event.request, Event.sleep 8] ∧
    sleepThenReissue
      (extractive_summarization defaultConfig "hello" 3 "Rank" allRateLimited).events
      (defaultConfig.rate_limit_delay * 2 ^ 2) = false := by
  have hd : defaultConfig.rate_limit_delay * 2 ^ 2 = (8 : ℚ) := by
    norm_num [defaultConfig]
  have hev : (extractive_summarization defaultConfig "hello" 3 "Rank"
      allRateLimited).events =
      [Event.request, Event.sleep 2, Event.request, Event.sleep 4,
        Event.request, Event.sleep 8] := by
    have htext : ¬ (pyStrip "hello" = "") := by decide
    have hsc : ¬ ¬ ((1 : Int) ≤ 3 ∧ (3 : Int) ≤ 20) := by decide
    simp only [extractive_summarization, if_neg htext, if_neg hsc]
    rw [finishRun_events]
    simp [retryLoop, retryAux, allRateLimited, defaultConfig]
    norm_num
  refine ⟨rfl, by decide, hd, hev, ?_⟩
  rw [hev, hd]
  decide

/-- C1, amended.  In the retry loop shared by `extractive_summarization`,
`abstractive_summarization` and `conversation_summarization`, when attempt
number `attempt` fails with an HTTP error whose status code is 429, the
loop sleeps exactly `rate_limit_delay * 2 ^ attempt` seconds; when further
attempts remain it then re-issues the same request (the continuation trace
starts with a request), while after the sleep of the final attempt the
loop exits and no further request is made. -/
theorem c1_rate_limit_backoff {α : Type} (cfg : RetryConfig)
    (body : Nat → BodyResult α) (fuel attempt : Nat)
    (h : body attempt = .raiseHttp 429) :
    (retryAux cfg body (fuel + 1) attempt).2 =
      Event.request :: Event.sleep (cfg.rate_limit_delay * 2 ^ attempt) ::
        (retryAux cfg body fuel (attempt + 1)).2 ∧
    (retryAux cfg body (fuel + 1) attempt).1 =
      (retryAux cfg body fuel (attempt + 1)).1 ∧
    (0 < fuel → (retryAux cfg body fuel (attempt + 1)).2.head? = some Event.request) ∧
    (fuel = 0 → (retryAux cfg body fuel (attempt + 1)).2 = []) := by
  refine ⟨?_, ?_, ?_, ?_⟩
  · simp [retryAux, h]
  · simp [retryAux, h]
  · exact fun hf => retryAux_head_request cfg body fuel (attempt + 1) hf
  · rintro rfl
    simp [retryAux]

/-- C1, witness for the amended theorem at attempt 1 of an all-rate-limited
run with one further attempt remaining. -/
theorem c1_rate_limit_backoff_witness :
    allRateLimited (α := SummaryResult) 1 = .raiseHttp 429 ∧
    (retryAux defaultConfig (allRateLimited (α := SummaryResult)) 2 1).2 =
      Event.request :: Event.sleep (defaultConfig.rate_limit_delay * 2 ^ 1) ::
        (retryAux defaultConfig (allRateLimited (α := SummaryResult)) 1 2).2 :=
  ⟨rfl, (c1_rate_limit_backoff defaultConfig allRateLimited 1 1 rfl).1⟩

/-- C2.  With the configuration of `__init__` (`max_retries = 3`), every
run of each summarization operation performs at most 3 attempts of the
underlying vendor call, and always terminates in one of three ways: a
returned value, an implicit `None` after falling out of the loop, or a
raised exception. -/
theorem c2_bounded_attempts (text : String) (sentence_count : Int)
    (sort_by summary_length : String) (items : List ConversationItem)
    (bodyE bodyA : Nat → BodyResult SummaryResult)
    (bodyC : Nat → BodyResult ConversationSummary) :
    countRequests
      (extractive_summarization defaultConfig text sentence_count sort_by bodyE).events ≤ 3 ∧
    countRequests
      (abstractive_summarization defaultConfig text summary_length bodyA).events ≤ 3 ∧
    countRequests (conversation_summarization defaultConfig items bodyC).events ≤ 3 ∧
    ((∃ v, (extractive_summarization defaultConfig text sentence_count sort_by bodyE).result
        = .ok v) ∨
      (extractive_summarization defaultConfig text sentence_count sort_by bodyE).result
        = .noneReturn ∨
      ∃ e, (extractive_summarization defaultConfig text sentence_count sort_by bodyE).result
        = .error e) ∧
    ((∃ v, (abstractive_summarization defaultConfig text summary_length bodyA).result = .ok v) ∨
      (abstractive_summarization defaultConfig text summary_length bodyA).result = .noneReturn ∨
      ∃ e, (abstractive_summarization defaultConfig text summary_length bodyA).result
        = .error e) ∧
    ((∃ v, (conversation_summarization defaultConfig items bodyC).result = .ok v) ∨
      (conversation_summarization defaultConfig items bodyC).result = .noneReturn ∨
      ∃ e, (conversation_summarization defaultConfig items bodyC).result = .error e) := by
  have hloopE := countRequests_retryAux_le defaultConfig bodyE 3 0
  have hloopA := countRequests_retryAux_le defaultConfig bodyA 3 0
  have hloopC := countRequests_retryAux_le defaultConfig bodyC 3 0
  refine ⟨?_, ?_, ?_, run_result_trichotomy _, run_result_trichotomy _,
    run_result_trichotomy _⟩
  · unfold extractive_summarization
    split
    · simp [validationFailure, countRequests]
    · split
      · simp [validationFailure, countRequests]
      · simpa [finishRun_events, retryLoop, defaultConfig] using hloopE
  · unfold abstractive_summarization
    split
    · simp [validationFailure, countRequests]
    · split
      · simp [validationFailure, countRequests]
      · simpa [finishRun_events, retryLoop, defaultConfig] using hloopA
  · unfold conversation_summarization
    split
    · simp [validationFailure, countRequests]
    · simpa [finishRun_events, retryLoop, defaultConfig] using hloopC

/-- C3.  Inside the retry loop of `extractive_summarization` and
`abstractive_summarization`: an `HttpResponseError` whose status code is
not 429 is re-raised immediately (the trace shows only that single
request, no sleep and no further attempt); any other exception sleeps
`retry_delay * 2 ^ attempt` and retries when the attempt is not the last
one, and is re-raised exactly when it occurs on attempt
`max_retries - 1`. -/
theorem c3_error_branches {α : Type} (cfg : RetryConfig)
    (body : Nat → BodyResult α) (fuel attempt : Nat) :
    (∀ code, body attempt = .raiseHttp code → code ≠ 429 →
      (retryAux cfg body (fuel + 1) attempt).1 = .raised (.httpResponseError code) ∧
      (retryAux cfg body (fuel + 1) attempt).2 = [Event.request]) ∧
    (∀ msg, body attempt = .raiseOther msg → attempt ≠ cfg.max_retries - 1 →
      (retryAux cfg body (fuel + 1) attempt).2 =
        Event.request :: Event.sleep (cfg.retry_delay * 2 ^ attempt) ::
          (retryAux cfg body fuel (attempt + 1)).2 ∧
      (retryAux cfg body (fuel + 1) attempt).1 =
        (retryAux cfg body fuel (attempt + 1)).1) ∧
    (∀ msg, body attempt = .raiseOther msg → attempt = cfg.max_retries - 1 →
      (retryAux cfg body (fuel + 1) attempt).1 = .raised (.other msg) ∧
      (retryAux cfg body (fuel + 1) attempt).2 = [Event.request]) := by
  refine ⟨?_, ?_, ?_⟩
  · intro code hb hc
    constructor <;> simp [retryAux, hb, hc]
  · intro msg hb ha
    constructor <;> simp [retryAux, hb, ha]
  · intro msg hb ha
    constructor <;>
      · simp only [retryAux, hb]
        simp [ha]

/-- An environment whose every attempt raises HTTP 500. -/
def alwaysHttp500 : Nat → BodyResult SummaryResult := fun _ => .raiseHttp 500

/-- An environment whose every attempt raises a generic exception. -/
def alwaysGenericFailure : Nat → BodyResult SummaryResult := fun _ => .raiseOther "boom"

/-- C3, witness: an HTTP 500 on attempt 0 is raised at once with a single
request; a generic failure on attempt 0 backs off `retry_delay * 2 ^ 0`;
a generic failure on attempt 2 (the last of `max_retries = 3`) is
re-raised. -/
theorem c3_error_branches_witness :
    ((retryAux defaultConfig alwaysHttp500 3 0).1 =
        .raised (.httpResponseError 500) ∧
      (retryAux defaultConfig alwaysHttp500 3 0).2 = [Event.request]) ∧
    (retryAux defaultConfig alwaysGenericFailure 3 0).2 =
      Event.request :: Event.sleep (defaultConfig.retry_delay * 2 ^ 0) ::
        (retryAux defaultConfig alwaysGenericFailure 2 1).2 ∧
    (retryAux defaultConfig alwaysGenericFailure 1 2).1 = .raised (.other "boom") :=
  ⟨(c3_error_branches defaultConfig alwaysHttp500 2 0).1 500 rfl (by decide),
    ((c3_error_branches defaultConfig alwaysGenericFailure 2 0).2.1 "boom" rfl
      (by decide)).1,
    ((c3_error_branches defaultConfig alwaysGenericFailure 0 2).2.2 "boom" rfl
      (by decide)).1⟩

/-- C4.  When every attempt of `extractive_summarization` or
`abstractive_summarization` fails with HTTP 429, the run neither raises
nor returns a `SummaryResult`: the loop is exhausted through the
rate-limit branch, the coroutine returns `None`, and no stats update (in
particular no failure) is recorded. -/
theorem c4_exhausted_rate_limit (cfg : RetryConfig) (text : String)
    (sentence_count : Int) (sort_by summary_length : String)
    (bodyE bodyA : Nat → BodyResult SummaryResult)
    (htext : pyStrip text ≠ "")
    (hsc : 1 ≤ sentence_count ∧ sentence_count ≤ 20)
    (hlen : summary_length = "short" ∨ summary_length = "medium" ∨ summary_length = "long")
    (hE : ∀ j, j < cfg.max_retries → bodyE j = .raiseHttp 429)
    (hA : ∀ j, j < cfg.max_retries → bodyA j = .raiseHttp 429) :
    (extractive_summarization cfg text sentence_count sort_by bodyE).result
      = .noneReturn ∧
    (extractive_summarization cfg text sentence_count sort_by bodyE).statsUpdates = [] ∧
    (abstractive_summarization cfg text summary_length bodyA).result = .noneReturn ∧
    (abstractive_summarization cfg text summary_length bodyA).statsUpdates = [] := by
  have hfellE : (retryLoop cfg bodyE).1 = .fellThrough :=
    retryAux_all429_fellThrough cfg bodyE cfg.max_retries 0
      (fun j hj => by simpa using hE j hj)
  have hfellA : (retryLoop cfg bodyA).1 = .fellThrough :=
    retryAux_all429_fellThrough cfg bodyA cfg.max_retries 0
      (fun j hj => by simpa using hA j hj)
  have heq : ¬ ¬ (1 ≤ sentence_count ∧ sentence_count ≤ 20) := not_not_intro hsc
  have hleq : ¬ ¬ (summary_length = "short" ∨ summary_length = "medium" ∨
      summary_length = "long") := not_not_intro hlen
  have h1 := finishRun_fellThrough (retryLoop cfg bodyE) hfellE
  have h2 := finishRun_fellThrough (retryLoop cfg bodyA) hfellA
  refine ⟨?_, ?_, ?_, ?_⟩ <;>
    simp only [extractive_summarization, abstractive_summarization,
      if_neg htext, if_neg heq, if_neg hleq]
  · exact h1.1
  · exact h1.2
  · exact h2.1
  · exact h2.2

/-- C4, witness: a valid text and sentence count with every attempt
rate-limited gives a `None` return and an empty stats-update list. -/
theorem c4_exhausted_rate_limit_witness :
    pyStrip "hello" ≠ "" ∧ (1 : Int) ≤ 3 ∧ (3 : Int) ≤ 20 ∧
    (extractive_summarization defaultConfig "hello" 3 "Rank" allRateLimited).result
      = .noneReturn ∧
    (extractive_summarization defaultConfig "hello" 3 "Rank" allRateLimited).statsUpdates
      = [] ∧
    (abstractive_summarization defaultConfig "hello" "medium" allRateLimited).result
      = .noneReturn ∧
    (abstractive_summarization defaultConfig "hello" "medium" allRateLimited).statsUpdates
      = [] := by
  have h := c4_exhausted_rate_limit defaultConfig "hello" 3 "Rank" "medium"
    allRateLimited allRateLimited (by decide) (by decide) (Or.inr (Or.inl rfl))
    (fun j _ => rfl) (fun j _ => rfl)
  exact ⟨by decide, by decide, by decide, h.1, h.2.1, h.2.2.1, h.2.2.2⟩

/-- C5.  A sentence count outside 1..20 makes `extractive_summarization`
raise a `ValueError` before any vendor request is made (the event trace is
empty); with a sentence count in 1..20 and non-empty text, the input
validation does not raise: no run outcome is a `ValueError`. -/
theorem c5_sentence_count_validation (cfg : RetryConfig) (text : String)
    (sentence_count : Int) (sort_by : String)
    (body : Nat → BodyResult SummaryResult) :
    (sentence_count < 1 ∨ 20 < sentence_count →
      (∃ msg, (extractive_summarization cfg text sentence_count sort_by body).result
        = .error (.valueError msg)) ∧
      (extractive_summarization cfg text sentence_count sort_by body).events = []) ∧
    (1 ≤ sentence_count → sentence_count ≤ 20 → pyStrip text ≠ "" →
      ∀ msg, (extractive_summarization cfg text sentence_count sort_by body).result
        ≠ .error (.valueError msg)) := by
  constructor
  · intro hout
    by_cases htext : pyStrip text = ""
    · simp only [extractive_summarization, if_pos htext]
      exact ⟨⟨"Input text cannot be empty", rfl⟩, rfl⟩
    · have hrange : ¬ (1 ≤ sentence_count ∧ sentence_count ≤ 20) := by omega
      simp only [extractive_summarization, if_neg htext, if_pos hrange]
      exact ⟨⟨"Sentence count must be between 1 and 20", rfl⟩, rfl⟩
  · intro h1 h2 htext msg hcontra
    have hrange : ¬ ¬ (1 ≤ sentence_count ∧ sentence_count ≤ 20) :=
      not_not_intro ⟨h1, h2⟩
    simp only [extractive_summarization, if_neg htext, if_neg hrange] at hcontra
    rw [finishRun_result_error] at hcontra
    rcases retryAux_raised_shape cfg body cfg.max_retries 0 _ hcontra with
      ⟨code, hc⟩ | ⟨m, hm⟩
    · simp at hc
    · simp at hm

/-- C5, witness: sentence count 0 yields a `ValueError` with an empty
trace, sentence count 3 with non-empty text never yields a `ValueError`. -/
theorem c5_sentence_count_validation_witness :
    (∃ msg, (extractive_summarization defaultConfig "hello" 0 "Rank"
        allRateLimited).result = .error (.valueError msg)) ∧
    (extractive_summarization defaultConfig "hello" 0 "Rank" allRateLimited).events
      = [] ∧
    (∀ msg, (extractive_summarization defaultConfig "hello" 3 "Rank"
        allRateLimited).result ≠ .error (.valueError msg)) :=
  ⟨((c5_sentence_count_validation defaultConfig "hello" 0 "Rank" allRateLimited).1
      (Or.inl (by decide))).1,
    ((c5_sentence_count_validation defaultConfig "hello" 0 "Rank" allRateLimited).1
      (Or.inl (by decide))).2,
    (c5_sentence_count_validation defaultConfig "hello" 3 "Rank" allRateLimited).2
      (by decide) (by decide) (by decide)⟩

/-- C6.  An empty or whitespace-only text makes `extractive_summarization`
and `abstractive_summarization` raise
`ValueError "Input text cannot be empty"` before contacting the service
(empty event trace), and an empty conversation-item list makes
`conversation_summarization` raise
`ValueError "Conversation items cannot be empty"`. -/
theorem c6_empty_input_validation (cfg : RetryConfig) (text : String)
    (sentence_count : Int) (sort_by summary_length : String)
    (bodyE bodyA : Nat → BodyResult SummaryResult)
    (items : List ConversationItem)
    (bodyC : Nat → BodyResult ConversationSummary) :
    (pyStrip text = "" →
      (extractive_summarization cfg text sentence_count sort_by bodyE).result
        = .error (.valueError "Input text cannot be empty") ∧
      (extractive_summarization cfg text sentence_count sort_by bodyE).events = [] ∧
      (abstractive_summarization cfg text summary_length bodyA).result
        = .error (.valueError "Input text cannot be empty") ∧
      (abstractive_summarization cfg text summary_length bodyA).events = []) ∧
    (items = [] →
      (conversation_summarization cfg items bodyC).result
        = .error (.valueError "Conversation items cannot be empty") ∧
      (conversation_summarization cfg items bodyC).events = []) := by
  constructor
  · intro h
    simp only [extractive_summarization, abstractive_summarization, if_pos h]
    exact ⟨rfl, rfl, rfl, rfl⟩
  · rintro rfl
    simp only [conversation_summarization, if_pos rfl]
    exact ⟨rfl, rfl⟩

/-- C6, witness at a whitespace-only text and an empty item list. -/
theorem c6_empty_input_validation_witness :
    pyStrip "   " = "" ∧
    (extractive_summarization defaultConfig "   " 3 "Rank" allRateLimited).result
      = .error (.valueError "Input text cannot be empty") ∧
    (extractive_summarization defaultConfig "   " 3 "Rank" allRateLimited).events = [] ∧
    (abstractive_summarization defaultConfig "   " "medium" allRateLimited).result
      = .error (.valueError "Input text cannot be empty") ∧
    (conversation_summarization defaultConfig [] allRateLimited).result
      = .error (.valueError "Conversation items cannot be empty") := by
  have h := c6_empty_input_validation defaultConfig "   " 3 "Rank" "medium"
    allRateLimited allRateLimited [] allRateLimited
  have h1 := h.1 (by decide)
  exact ⟨by decide, h1.1, h1.2.1, h1.2.2.1, (h.2 rfl).1⟩

/-- Values of `keepSummaryResult`: only gathered `SummaryResult` values
survive the `isinstance` filter. -/
theorem keepSummaryResult_eq_some (g : GatherItem) (r : SummaryResult) :
    keepSummaryResult g = some r ↔ g = .value r := by
  cases g <;> simp [keepSummaryResult]

/-- C7.  `batch_summarization` returns exactly the per-document results
that are `SummaryResult` values, in document order (it equals the
`filterMap` of the per-document outcomes over the document list), its
length is at most the number of documents, and every returned element is
the `SummaryResult` produced for some document of the batch. -/
theorem c7_batch_filters (documents : List String)
    (process : String → GatherItem) :
    batch_summarization documents process =
      documents.filterMap (fun d => keepSummaryResult (process d)) ∧
    (batch_summarization documents process).length ≤ documents.length ∧
    (∀ r, r ∈ batch_summarization documents process →
      ∃ d, d ∈ documents ∧ process d = .value r) := by
  have heq : batch_summarization documents process =
      documents.filterMap (fun d => keepSummaryResult (process d)) := by
    simp only [batch_summarization, List.filterMap_map]
    rfl
  refine ⟨heq, ?_, ?_⟩
  · rw [heq]
    exact List.length_filterMap_le _ _
  · intro r hr
    rw [heq] at hr
    rcases List.mem_filterMap.1 hr with ⟨d, hd, he⟩
    exact ⟨d, hd, (keepSummaryResult_eq_some (process d) r).1 he⟩

/-- A sample summarization result used by concrete batch runs. -/
def sampleResult : SummaryResult :=
  { summary_type := "extractive", summary_text := "short summary" }

/-- A per-document environment: the first document succeeds, the second
fails inside `process_document` (yielding `None`), the third surfaces an
exception value. -/
def sampleBatchEnv : String → GatherItem :=
  fun d =>
    if d = "docA" then .value sampleResult
    else if d = "docB" then .noneValue
    else .exc (.other "failed")

/-- C7, witness: on a three-document batch with one success, the returned
list is exactly the successful result, its length is at most 3, and its
element comes from a document of the batch. -/
theorem c7_batch_filters_witness :
    batch_summarization ["docA", "docB", "docC"] sampleBatchEnv =
      ["docA", "docB", "docC"].filterMap (fun d => keepSummaryResult (sampleBatchEnv d)) ∧
    (batch_summarization ["docA", "docB", "docC"] sampleBatchEnv).length ≤ 3 ∧
    sampleResult ∈ batch_summarization ["docA", "docB", "docC"] sampleBatchEnv ∧
    ∃ d, d ∈ ["docA", "docB", "docC"] ∧ sampleBatchEnv d = .value sampleResult :=
  ⟨(c7_batch_filters ["docA", "docB", "docC"] sampleBatchEnv).1,
    (c7_batch_filters ["docA", "docB", "docC"] sampleBatchEnv).2.1,
    by decide,
    (c7_batch_filters ["docA", "docB", "docC"] sampleBatchEnv).2.2 sampleResult
      (by decide)⟩

/-- Evaluation of `trim_history` on an explicit record. -/
theorem trim_history_eval (msgs : List Message) (h : Int) (tok : Nat) :
    ConversationManager.trim_history
        { messages := msgs, max_history := h, total_tokens := tok } =
      if (msgs.length : Int) > h + 1 then
        { messages := msgs.take 1 ++ pySliceFrom msgs (-h),
          max_history := h, total_tokens := tok }
      else
        { messages := msgs, max_history := h, total_tokens := tok } := rfl

/-- Evaluation of `add_user_message` on an explicit record. -/
theorem add_user_eval (msgs : List Message) (h : Int) (tok : Nat) (c : String) :
    ConversationManager.add_user_message
        { messages := msgs, max_history := h, total_tokens := tok } c =
      ConversationManager.trim_history
        { messages := msgs ++ [{ role := "user", content := c }],
          max_history := h, total_tokens := tok } := rfl

/-- Evaluation of `add_assistant_message` on an explicit record. -/
theorem add_assistant_eval (msgs : List Message) (h : Int) (tok : Nat) (c : String) :
    ConversationManager.add_assistant_message
        { messages := msgs, max_history := h, total_tokens := tok } c =
      ConversationManager.trim_history
        { messages := msgs ++ [{ role := "assistant", content := c }],
          max_history := h, total_tokens := tok } := rfl

/-- Exact evaluation of one append-and-trim step when `max_history ≥ 1`
and the non-system tail already holds at most `max_history` messages:
while the bound is not yet reached the new message is simply appended,
and once the tail is full the oldest non-system message is dropped, so
the tail stays the most recent `max_history` appended messages. -/
theorem trim_append_eval (sp : String) (h : Int) (hh : 1 ≤ h)
    (t : List Message) (tok : Nat) (m : Message)
    (hlen : t.length ≤ h.toNat) :
    ConversationManager.trim_history
        { messages := ({ role := "system", content := sp } :: t) ++ [m],
          max_history := h, total_tokens := tok } =
      { messages := { role := "system", content := sp } ::
          (if t.length = h.toNat then (t ++ [m]).drop 1 else t ++ [m]),
        max_history := h, total_tokens := tok } := by
  have hcast : (h.toNat : Int) = h := Int.toNat_of_nonneg (by omega)
  rw [trim_history_eval]
  have hlen2 : (({ role := "system", content := sp } :: t) ++ [m]).length
      = t.length + 2 := by simp
  by_cases ht : t.length = h.toNat
  · have hc :
        (((({ role := "system", content := sp } :: t) ++ [m]).length : Int) > h + 1) := by
      rw [hlen2]
      omega
    rw [if_pos hc, if_pos ht]
    have hneg : (-h : Int) < 0 := by omega
    simp only [pySliceFrom, if_pos hneg, hlen2]
    have h2 : ((↑(t.length + 2) : Int) + -h).toNat = 2 := by omega
    rw [h2]
    simp
  · have hc :
        ¬ (((({ role := "system", content := sp } :: t) ++ [m]).length : Int) > h + 1) := by
      rw [hlen2]
      omega
    rw [if_neg hc, if_neg ht]
    simp

/-- Keeping the last `k` elements is unchanged by first removing the head
of a block of length `k + 1` at the front. -/
theorem drop_last_shift (A S : List Message) (k : Nat) (hA : A.length = k + 1) :
    (A.drop 1 ++ S).drop ((A.drop 1 ++ S).length - k) =
      (A ++ S).drop ((A ++ S).length - k) := by
  have h1 : A.drop 1 ++ S = (A ++ S).drop 1 := by
    rw [List.drop_append_of_le_length (by omega)]
  rw [h1, List.drop_drop]
  congr 1
  simp only [List.length_drop, List.length_append, hA]
  omega

/-- C9, counterexample.  With `max_history = 0`, the Python slice
`messages[-0:]` is the whole list, so one `add_user_message` on a fresh
manager gives three messages, violating the claimed bound
`len(messages) ≤ max_history + 1 = 1`. -/
theorem c9_counterexample :
    (applyChatOps (ConversationManager.init "sys" 0)
        [ChatOp.user "hi"]).messages.length = 3 ∧
    ¬ (((applyChatOps (ConversationManager.init "sys" 0)
        [ChatOp.user "hi"]).messages.length : Int)
      ≤ (ConversationManager.init "sys" 0).max_history + 1) := by
  constructor <;> decide

/-- The message a mutator call appends. -/
def chatOpMessage : ChatOp → Message
  | .user c => { role := "user", content := c }
  | .assistant c => { role := "assistant", content := c }

/-- The stream of messages appended by a sequence of mutator calls, in
call order. -/
def chatOpMessages (ops : List ChatOp) : List Message :=
  ops.map chatOpMessage

/-- C9, amended.  For every `ConversationManager` constructed with a
system prompt and `max_history ≥ 1`, after any sequence of
`add_user_message` and `add_assistant_message` calls the first message is
still the original system message, the message count never exceeds
`max_history + 1`, and the messages are exactly the system message
followed by the most recent `max_history` appended messages (all of them
while fewer have been appended): trimming keeps the suffix of the
appended stream.  (With `max_history = 0` the trimming slice `[-0:]`
keeps the whole list and the bound fails, see the counterexample.) -/
theorem c9_history_invariant (system_prompt : String) (h : Int)
    (ops : List ChatOp) (hh : 1 ≤ h) :
    (applyChatOps (ConversationManager.init system_prompt h) ops).messages.head? =
      some { role := "system", content := system_prompt } ∧
    ((applyChatOps (ConversationManager.init system_prompt h) ops).messages.length : Int)
      ≤ h + 1 ∧
    (applyChatOps (ConversationManager.init system_prompt h) ops).messages =
      { role := "system", content := system_prompt } ::
        (chatOpMessages ops).drop ((chatOpMessages ops).length - h.toNat) := by
  have hcast : (h.toNat : Int) = h := Int.toNat_of_nonneg (by omega)
  have main : ∀ (ops2 : List ChatOp) (t : List Message) (tok : Nat),
      t.length ≤ h.toNat →
      (applyChatOps
          { messages := { role := "system", content := system_prompt } :: t,
            max_history := h, total_tokens := tok } ops2).messages =
        { role := "system", content := system_prompt } ::
          (t ++ chatOpMessages ops2).drop
            ((t ++ chatOpMessages ops2).length - h.toNat) := by
    intro ops2
    induction ops2 with
    | nil =>
      intro t tok hlen
      show { role := "system", content := system_prompt } :: t =
        { role := "system", content := system_prompt } ::
          (t ++ chatOpMessages []).drop ((t ++ chatOpMessages []).length - h.toNat)
      rw [show chatOpMessages [] = [] from rfl, List.append_nil,
        Nat.sub_eq_zero_of_le hlen, List.drop_zero]
    | cons op rest ih =>
      intro t tok hlen
      have step : ∀ (c : String) (role2 : String),
          (applyChatOps (ConversationManager.trim_history
              { messages := ({ role := "system", content := system_prompt } :: t)
                  ++ [{ role := role2, content := c }],
                max_history := h, total_tokens := tok }) rest).messages =
            { role := "system", content := system_prompt } ::
              (t ++ ({ role := role2, content := c } :: chatOpMessages rest)).drop
                ((t ++ ({ role := role2, content := c } :: chatOpMessages rest)).length
                  - h.toNat) := by
        intro c role2
        rw [trim_append_eval system_prompt h hh t tok _ hlen]
        by_cases ht : t.length = h.toNat
        · rw [if_pos ht]
          rw [ih ((t ++ [({ role := role2, content := c } : Message)]).drop 1) tok
            (by simp only [List.length_drop, List.length_append, List.length_cons,
              List.length_nil]; omega)]
          congr 1
          have hA : (t ++ [({ role := role2, content := c } : Message)]).length
              = h.toNat + 1 := by
            simp [ht]
          have hshift := drop_last_shift (t ++ [({ role := role2, content := c } : Message)])
            (chatOpMessages rest) h.toNat hA
          rw [show t ++ (({ role := role2, content := c } : Message) :: chatOpMessages rest) =
            (t ++ [({ role := role2, content := c } : Message)]) ++ chatOpMessages rest
            by simp]
          exact hshift
        · rw [if_neg ht]
          rw [ih (t ++ [({ role := role2, content := c } : Message)]) tok
            (by simp only [List.length_append, List.length_cons, List.length_nil]; omega)]
          congr 1
          rw [show t ++ (({ role := role2, content := c } : Message) :: chatOpMessages rest) =
            (t ++ [({ role := role2, content := c } : Message)]) ++ chatOpMessages rest
            by simp]
      cases op with
      | user c =>
        show (applyChatOps (ConversationManager.add_user_message
            { messages := { role := "system", content := system_prompt } :: t,
              max_history := h, total_tokens := tok } c) rest).messages = _
        rw [add_user_eval]
        exact step c "user"
      | assistant c =>
        show (applyChatOps (ConversationManager.add_assistant_message
            { messages := { role := "system", content := system_prompt } :: t,
              max_history := h, total_tokens := tok } c) rest).messages = _
        rw [add_assistant_eval]
        exact step c "assistant"
  have hmain := main ops [] 0 (by simp)
  rw [List.nil_append] at hmain
  have hmain2 : (applyChatOps (ConversationManager.init system_prompt h) ops).messages =
      { role := "system", content := system_prompt } ::
        (chatOpMessages ops).drop ((chatOpMessages ops).length - h.toNat) := hmain
  refine ⟨?_, ?_, hmain2⟩
  · rw [hmain2]
    rfl
  · rw [hmain2]
    simp only [List.length_cons, List.length_drop]
    omega

/-- C9, witness for the amended theorem: `max_history = 1` with three
messages added keeps the system message first, at most two messages, and
exactly the most recent appended message after the system message. -/
theorem c9_history_invariant_witness :
    (1 : Int) ≤ 1 ∧
    (applyChatOps (ConversationManager.init "be helpful" 1)
        [ChatOp.user "a", ChatOp.assistant "b", ChatOp.user "c"]).messages.head? =
      some { role := "system", content := "be helpful" } ∧
    ((applyChatOps (ConversationManager.init "be helpful" 1)
        [ChatOp.user "a", ChatOp.assistant "b", ChatOp.user "c"]).messages.length : Int)
      ≤ 1 + 1 ∧
    (applyChatOps (ConversationManager.init "be helpful" 1)
        [ChatOp.user "a", ChatOp.assistant "b", ChatOp.user "c"]).messages =
      [{ role := "system", content := "be helpful" },
        { role := "user", content := "c" }] := by
  have hmain := c9_history_invariant "be helpful" 1
    [ChatOp.user "a", ChatOp.assistant "b", ChatOp.user "c"] (le_refl 1)
  refine ⟨le_refl 1, hmain.1, hmain.2.1, ?_⟩
  rw [hmain.2.2]
  rfl

/-- C10.  In `analyze_text`, an empty or whitespace-only text is not an
error: the function returns early and no document is sent to the service;
and when a non-whitespace text longer than 5000 characters is analyzed,
the document actually sent is exactly its first 5000 characters. -/
theorem c10_analyze_text (text : String) :
    (pyStrip text = "" → analyze_text text = none) ∧
    (pyStrip text ≠ "" → 5000 < text.data.length →
      analyze_text text = some ⟨text.data.take 5000⟩ ∧
      ∀ s, analyze_text text = some s → s.data.length = 5000) := by
  constructor
  · intro h
    simp [analyze_text, h]
  · intro h hl
    have heq : analyze_text text = some ⟨text.data.take 5000⟩ := by
      unfold analyze_text
      rw [if_neg h, if_pos hl]
    refine ⟨heq, ?_⟩
    intro s hs
    rw [heq] at hs
    injection hs with hs2
    rw [← hs2]
    simp only [List.length_take]
    omega

/-- The 5001-character text used by the C10 witness. -/
def longSample : String := ⟨List.replicate 5001 'x'⟩

/-- Dropping leading whitespace leaves a run of `x` characters intact. -/
theorem dropWhile_whitespace_replicate :
    List.dropWhile Char.isWhitespace (List.replicate 5001 'x')
      = List.replicate 5001 'x' := by
  have h : (5001 : Nat) = 5000 + 1 := rfl
  rw [h, List.replicate_succ, List.dropWhile_cons_of_neg (by decide)]

/-- Stripping the all-`x` sample changes nothing. -/
theorem pyStrip_longSample : pyStrip longSample = longSample := by
  show String.mk (((List.replicate 5001 'x').dropWhile
      Char.isWhitespace).reverse.dropWhile Char.isWhitespace).reverse = longSample
  rw [dropWhile_whitespace_replicate, List.reverse_replicate,
    dropWhile_whitespace_replicate, List.reverse_replicate]
  rfl

/-- The stripped sample is not the empty string. -/
theorem pyStrip_longSample_ne : pyStrip longSample ≠ "" := by
  rw [pyStrip_longSample]
  intro hcontra
  have h2 : longSample.data = "".data := congrArg String.data hcontra
  have h3 : longSample.data.length = 0 := by rw [h2]; rfl
  rw [show longSample.data = List.replicate 5001 'x' from rfl,
    List.length_replicate] at h3
  exact absurd h3 (by norm_num)

/-- The sample is longer than 5000 characters. -/
theorem longSample_length : 5000 < longSample.data.length := by
  show 5000 < (List.replicate 5001 'x').length
  rw [List.length_replicate]
  norm_num

/-- C10, witness: whitespace-only input is skipped, and a 5001-character
text is truncated to its first 5000 characters. -/
theorem c10_analyze_text_witness :
    analyze_text "   " = none ∧
    pyStrip longSample ≠ "" ∧ 5000 < longSample.data.length ∧
    analyze_text longSample = some ⟨longSample.data.take 5000⟩ :=
  ⟨(c10_analyze_text "   ").1 (by decide),
    pyStrip_longSample_ne, longSample_length,
    ((c10_analyze_text longSample).2 pyStrip_longSample_ne longSample_length).1⟩

end AzureAIModels
